import Mathlib

/-!
Shallow embedding of `src/CrearPelicula.py` (a single AWS Lambda handler that
creates one "pelicula" record in a DynamoDB table).

Modelling conventions:
* JSON-like Python values (the Lambda event, request bodies, response bodies)
  are modelled by the inductive `JsonVal`.  Python dicts are association lists
  of string keys; as in Python dict / `json.loads` semantics, the *last*
  occurrence of a key wins (`lookupField`).
* `os.environ.get(TABLE_ENV_NAME)` is a parameter `tableEnv : Option String`.
* `json.loads` is a library function, modelled as a parameter
  `parse : String -> Except String JsonVal` (`.error m` is a
  `json.JSONDecodeError` with message `m`).
* `uuid.uuid4()` draws 16 random bytes; the randomness is a parameter
  `r : Nat` (taken mod 2^128) and `uuid4String r` applies the version-4 /
  variant bits exactly as CPython's `uuid.UUID(..., version=4)` does, then
  formats the canonical hyphenated lowercase-hex text.
* The DynamoDB `table.put_item` call is a parameter `store : StoreOutcome`:
  it either returns a response whose `ResponseMetadata.HTTPStatusCode` is an
  `Option Int`, or raises an exception.
* Python exceptions are `PyErr`; `pyStr` is `str(e)` (note `str` of a
  `KeyError` is the *repr* of its argument) and `className` is
  `e.__class__.__name__`.
* The handler's returned `body` is `json.dumps` of a structured value; the
  model keeps the structured value itself (`HandlerResult.bodyVal`) rather
  than its serialized text.  `HandlerResult.wrote` records whether the
  `put_item` call was reached (instrumentation; not part of the response).
* The `print`-based log emissions (`_log_info` / `_log_error`) and the
  defensive `entrada_relevante` recomputation in the error path have no
  effect on the returned response and are not modelled.
-/

/-- A JSON-like Python value. -/
inductive JsonVal where
  | null
  | bool (b : Bool)
  | num (n : Int)
  | str (s : String)
  | arr (elems : List JsonVal)
  | obj (fields : List (String × JsonVal))
deriving Repr

/-- Python dict lookup on an association list: the last binding of a key wins
(as when a dict is built by `json.loads` or repeated assignment). -/
def lookupField (fields : List (String × JsonVal)) (k : String) : Option JsonVal :=
  (fields.reverse.find? (fun p => p.1 == k)).map (fun p => p.2)

/-- Python dict key-membership test on an association list. -/
def hasField (fields : List (String × JsonVal)) (k : String) : Bool :=
  fields.any (fun p => p.1 == k)

/-- The Python exceptions that can arise in `lambda_handler`. -/
inductive PyErr where
  | clientError (msg : String)
  | valueError (msg : String)
  | jsonDecodeError (msg : String)
  | keyError (key : String)
  | runtimeError (msg : String)
  | typeError (msg : String)
  | otherError (name : String) (msg : String)
deriving Repr

/-- `e.__class__.__name__`. -/
def className : PyErr → String
  | .clientError _ => "ClientError"
  | .valueError _ => "ValueError"
  | .jsonDecodeError _ => "JSONDecodeError"
  | .keyError _ => "KeyError"
  | .runtimeError _ => "RuntimeError"
  | .typeError _ => "TypeError"
  | .otherError n _ => n

/-- Python `repr` of a string, for strings that need no character escaping:
`repr` quotes with `'` unless the string contains `'` and no `"`, in which
case it quotes with `"`.  (Only applied to fixed messages without escapes.) -/
def pyReprStr (s : String) : String :=
  if (s.data.any fun c => c == '\x27') && !(s.data.any fun c => c == '"') then
    "\"" ++ s ++ "\""
  else
    "\x27" ++ s ++ "\x27"

/-- `str(e)`.  For `KeyError`, `str` returns the `repr` of the missing key;
for the other exception classes it returns the message itself. -/
def pyStr : PyErr → String
  | .clientError m => m
  | .valueError m => m
  | .jsonDecodeError m => m
  | .keyError k => pyReprStr k
  | .runtimeError m => m
  | .typeError m => m
  | .otherError _ m => m

/-- The characters stripped by Python's `str.strip()` (CPython's
`Py_UNICODE_ISSPACE` / `str.isspace` set): U+0009-U+000D, U+001C-U+001F,
space, U+0085, U+00A0, U+1680, U+2000-U+200A, U+2028, U+2029, U+202F,
U+205F and U+3000. -/
def isPySpace (c : Char) : Bool :=
  (0x09 ≤ c.toNat && c.toNat ≤ 0x0d) ||
  (0x1c ≤ c.toNat && c.toNat ≤ 0x20) ||
  c.toNat == 0x85 || c.toNat == 0xa0 ||
  c.toNat == 0x1680 ||
  (0x2000 ≤ c.toNat && c.toNat ≤ 0x200a) ||
  c.toNat == 0x2028 || c.toNat == 0x2029 || c.toNat == 0x202f ||
  c.toNat == 0x205f || c.toNat == 0x3000

/-- Python `s.strip()` (Unicode whitespace, as above). -/
def pyStrip (s : String) : String :=
  String.mk (((s.data.dropWhile isPySpace).reverse.dropWhile isPySpace).reverse)

/-- Python substring test `sub in s`. -/
def strContainsSub (s sub : String) : Bool :=
  (s.splitOn sub).length ≥ 2

/-- `_parse_event_body(event)` from `src/CrearPelicula.py` (lines 19-34).
Supports `event["body"]` as a dict, `event["body"]` as a JSON string
(empty/whitespace-only strings become `{}`), and a top-level fallback.
A `body` that is neither dict nor string raises `ValueError`; a malformed
JSON string makes `json.loads` raise `JSONDecodeError`. -/
def _parse_event_body (parse : String → Except String JsonVal) (event : JsonVal) :
    Except PyErr JsonVal :=
  match event with
  | .obj fields =>
    match lookupField fields "body" with
    | some (.str s) =>
      if (pyStrip s).isEmpty then .ok (.obj [])
      else
        match parse s with
        | .ok v => .ok v
        | .error m => .error (.jsonDecodeError m)
    | some (.obj bf) => .ok (.obj bf)
    | some _ => .error (.valueError "El campo \x27body\x27 debe ser dict o string JSON.")
    | none => .ok (.obj fields)
  | _ => .ok (.obj [])

/-- Python `key in v` for the values a resolved body can take: dict key test,
list membership, substring test on strings; `in` on other values raises
`TypeError`. -/
def pyContains (v : JsonVal) (key : String) : Except PyErr Bool :=
  match v with
  | .obj fields => .ok (hasField fields key)
  | .arr xs => .ok (xs.any (fun e => match e with | .str s => s == key | _ => false))
  | .str s => .ok (strContainsSub s key)
  | _ => .error (.typeError "argument of type is not iterable")

/-- Python `v[key]` for the values a resolved body can take. -/
def pyGetItem (v : JsonVal) (key : String) : Except PyErr JsonVal :=
  match v with
  | .obj fields =>
    match lookupField fields key with
    | some x => .ok x
    | none => .error (.keyError key)
  | .str _ => .error (.typeError "string indices must be integers")
  | .arr _ => .error (.typeError "list indices must be integers or slices, not str")
  | _ => .error (.typeError "object is not subscriptable")

/-- Hex digit `i` (from the least significant end) of `x`. -/
def hexDigit (x i : Nat) : Nat := x / 16 ^ i % 16

/-- Lowercase hexadecimal digit character. -/
def hexChar : Nat → Char
  | 0 => '0' | 1 => '1' | 2 => '2' | 3 => '3' | 4 => '4'
  | 5 => '5' | 6 => '6' | 7 => '7' | 8 => '8' | 9 => '9'
  | 10 => 'a' | 11 => 'b' | 12 => 'c' | 13 => 'd' | 14 => 'e' | 15 => 'f'
  | _ + 16 => '0'

/-- The 128-bit integer of `uuid.UUID(bytes=r, version=4)`: the random value
with bits 76-79 (the version nibble) forced to `4` and bits 62-63 (the
variant) forced to `10`, all other bits kept. -/
def uuid4Int (r : Nat) : Nat :=
  let x := r % 2 ^ 128
  let lo := x % 2 ^ 60
  let variantNibble := x / 2 ^ 60 % 16
  let mid := x / 2 ^ 64 % 2 ^ 12
  let hi := x / 2 ^ 80
  lo + (8 + variantNibble % 4) * 2 ^ 60 + mid * 2 ^ 64 + 4 * 2 ^ 76 + hi * 2 ^ 80

/-- The 36 characters of `str(uuid.uuid4())`: 32 lowercase hex digits in
groups 8-4-4-4-12 separated by hyphens. -/
def uuid4Chars (r : Nat) : List Char :=
  let x := uuid4Int r
  let d := fun i => hexChar (hexDigit x (31 - i))
  [d 0, d 1, d 2, d 3, d 4, d 5, d 6, d 7, '-',
   d 8, d 9, d 10, d 11, '-',
   d 12, d 13, d 14, d 15, '-',
   d 16, d 17, d 18, d 19, '-',
   d 20, d 21, d 22, d 23, d 24, d 25, d 26, d 27, d 28, d 29, d 30, d 31]

/-- `str(uuid.uuid4())` with randomness `r`. -/
def uuid4String (r : Nat) : String := String.mk (uuid4Chars r)

/-- Lowercase hexadecimal digit character test. -/
def isHexLower (c : Char) : Bool :=
  ('0' ≤ c && c ≤ '9') || ('a' ≤ c && c ≤ 'f')

/-- Canonical hyphenated textual form of a version-4 UUID: 36 characters,
hyphens at positions 8, 13, 18, 23, lowercase hex elsewhere, `4` at
position 14 (the version) and one of `8 9 a b` at position 19 (the
variant). -/
def isCanonicalUUIDv4 (s : String) : Bool :=
  match s.data with
  | a0 :: a1 :: a2 :: a3 :: a4 :: a5 :: a6 :: a7 :: h1 ::
    b0 :: b1 :: b2 :: b3 :: h2 ::
    c0 :: c1 :: c2 :: c3 :: h3 ::
    e0 :: e1 :: e2 :: e3 :: h4 ::
    f0 :: f1 :: f2 :: f3 :: f4 :: f5 :: f6 :: f7 :: f8 :: f9 :: f10 :: f11 :: [] =>
    h1 == '-' && h2 == '-' && h3 == '-' && h4 == '-' &&
    c0 == '4' && (e0 == '8' || e0 == '9' || e0 == 'a' || e0 == 'b') &&
    [a0, a1, a2, a3, a4, a5, a6, a7, b0, b1, b2, b3, c1, c2, c3,
     e1, e2, e3, f0, f1, f2, f3, f4, f5, f6, f7, f8, f9, f10, f11].all isHexLower
  | _ => false

/-- Outcome of the `table.put_item(Item=pelicula)` call: either a response
whose `ResponseMetadata.HTTPStatusCode` is `httpStatus`, or a raised
exception (`.raises (.clientError m)` for a `botocore` `ClientError` —
DynamoDB reports both client-side and server-side errors this way — and
`.raises (.otherError n m)` for any other unexpected exception). -/
inductive StoreOutcome where
  | ok (httpStatus : Option Int)
  | raises (e : PyErr)
deriving Repr

/-- The `pelicula` item built at lines 60-64 of the source. -/
def peliculaRecord (tenant : JsonVal) (u : String) (datos : JsonVal) : JsonVal :=
  .obj [("tenant_id", tenant), ("uuid", .str u), ("pelicula_datos", datos)]

/-- `response.get("ResponseMetadata", {}).get("HTTPStatusCode", None)` as a
JSON value. -/
def httpStatusVal : Option Int → JsonVal
  | some n => .num n
  | none => .null

/-- The success response body (lines 83-91): `{pelicula, response}`. -/
def successBody (pelicula : JsonVal) (hs : Option Int) : JsonVal :=
  .obj [("pelicula", pelicula), ("response", .obj [("http_status", httpStatusVal hs)])]

/-- Whether an exception is caught by the first `except` clause (line 93):
`isinstance(e, (ClientError, ValueError, KeyError, RuntimeError))`.
`JSONDecodeError` is a subclass of `ValueError`. -/
def isExpectedError : PyErr → Bool
  | .clientError _ => true
  | .valueError _ => true
  | .jsonDecodeError _ => true
  | .keyError _ => true
  | .runtimeError _ => true
  | _ => false

/-- The status chosen at line 116:
`400 if isinstance(e, (ValueError, KeyError, RuntimeError)) else 500`.
Note `ClientError` is *not* in this tuple, so it yields 500. -/
def errStatus : PyErr → Nat
  | .valueError _ => 400
  | .jsonDecodeError _ => 400
  | .keyError _ => 400
  | .runtimeError _ => 400
  | _ => 500

/-- The error body returned by the first `except` clause (lines 117-125). -/
def errorBody (e : PyErr) : JsonVal :=
  .obj [("error", .obj [("mensaje", .str (pyStr e)), ("tipo_error", .str (className e))])]

/-- The error body returned by the second `except` clause (lines 139-147):
the message is the fixed generic text, not `str(e)`. -/
def unexpectedBody (e : PyErr) : JsonVal :=
  .obj [("error", .obj [("mensaje", .str "Error interno inesperado."),
                        ("tipo_error", .str (className e))])]

/-- The `try` block of `lambda_handler` (lines 40-91), as an `Except`:
`.error (e, w)` is a raised exception `e`, `.ok (body, w)` the success body;
`w` records whether the `put_item` call was reached. -/
def handlerTry (tableEnv : Option String) (parse : String → Except String JsonVal)
    (r : Nat) (store : StoreOutcome) (event : JsonVal) :
    Except (PyErr × Bool) (JsonVal × Bool) :=
  if (tableEnv.getD "").isEmpty then
    .error (.runtimeError "Variable de entorno \x27TABLE_NAME\x27 no definida.", false)
  else
    match _parse_event_body parse event with
    | .error e => .error (e, false)
    | .ok body =>
      match pyContains body "tenant_id" with
      | .error e => .error (e, false)
      | .ok hasT =>
        if !hasT then .error (.keyError "Falta \x27tenant_id\x27 en el body.", false)
        else
          match pyContains body "pelicula_datos" with
          | .error e => .error (e, false)
          | .ok hasP =>
            if !hasP then .error (.keyError "Falta \x27pelicula_datos\x27 en el body.", false)
            else
              match pyGetItem body "tenant_id" with
              | .error e => .error (e, false)
              | .ok tenant =>
                match pyGetItem body "pelicula_datos" with
                | .error e => .error (e, false)
                | .ok datos =>
                  match store with
                  | .ok hs =>
                    .ok (successBody (peliculaRecord tenant (uuid4String r) datos) hs, true)
                  | .raises e => .error (e, true)

/-- The value returned by `lambda_handler`: the HTTP-like status code and the
structured value serialized into `body` by `json.dumps`; `wrote` is the
instrumentation flag from `handlerTry`. -/
structure HandlerResult where
  statusCode : Nat
  bodyVal : JsonVal
  wrote : Bool
deriving Repr

/-- `lambda_handler(event, context)` (lines 36-147): run the `try` block and
map raised exceptions through the two `except` clauses. -/
def lambda_handler (tableEnv : Option String) (parse : String → Except String JsonVal)
    (r : Nat) (store : StoreOutcome) (event : JsonVal) : HandlerResult :=
  match handlerTry tableEnv parse r store event with
  | .ok (body, w) => { statusCode := 200, bodyVal := body, wrote := w }
  | .error (e, w) =>
    if isExpectedError e then
      { statusCode := errStatus e, bodyVal := errorBody e, wrote := w }
    else
      { statusCode := 500, bodyVal := unexpectedBody e, wrote := w }

/-- Extract `body["error"][k]` from a response, when the body has the error
shape. -/
def errField (res : HandlerResult) (k : String) : Option JsonVal :=
  match res.bodyVal with
  | .obj [("error", .obj fs)] => lookupField fs k
  | _ => none

/-- Extract `body["error"][k]` as a string. -/
def errFieldStr (res : HandlerResult) (k : String) : Option String :=
  match errField res k with
  | some (.str s) => some s
  | _ => none

/-! ### Lemmas about the generated UUID text -/

def hexVal (c : Char) : Nat := if c ≤ '9' then c.toNat - 48 else c.toNat - 87

theorem hexChar_isHexLower (n : Nat) : isHexLower (hexChar n) = true := by
  unfold hexChar
  split <;> decide

theorem hexVal_hexChar (n : Nat) (h : n < 16) : hexVal (hexChar n) = n := by
  unfold hexChar
  split <;> first | decide | omega

theorem hexDigit_lt (x i : Nat) : hexDigit x i < 16 :=
  Nat.mod_lt _ (by norm_num)

theorem uuid4Int_lt (r : Nat) : uuid4Int r < 2 ^ 128 := by
  simp only [uuid4Int]
  have h1 : r % 2^128 % 2^60 < 2^60 := Nat.mod_lt _ (by norm_num)
  have h2 : r % 2^128 / 2^60 % 16 % 4 < 4 := Nat.mod_lt _ (by norm_num)
  have h3 : r % 2^128 / 2^64 % 2^12 < 2^12 := Nat.mod_lt _ (by norm_num)
  have h4 : r % 2^128 / 2^80 < 2^48 := by
    apply Nat.div_lt_of_lt_mul
    calc r % 2^128 < 2^128 := Nat.mod_lt _ (by norm_num)
    _ ≤ 2^80 * 2^48 := by norm_num
  omega

theorem uuid4Int_digit19 (r : Nat) : hexDigit (uuid4Int r) 19 = 4 := by
  have e1 : (16:Nat)^19 = 2^76 := by norm_num
  simp only [uuid4Int, hexDigit, e1]
  have h1 : r % 2^128 % 2^60 < 2^60 := Nat.mod_lt _ (by norm_num)
  have h2 : r % 2^128 / 2^60 % 16 % 4 < 4 := Nat.mod_lt _ (by norm_num)
  have h3 : r % 2^128 / 2^64 % 2^12 < 2^12 := Nat.mod_lt _ (by norm_num)
  omega

theorem uuid4Int_digit15 (r : Nat) :
    ∃ k, k < 4 ∧ hexDigit (uuid4Int r) 15 = 8 + k := by
  refine ⟨r % 2^128 / 2^60 % 16 % 4, Nat.mod_lt _ (by norm_num), ?_⟩
  have e1 : (16:Nat)^15 = 2^60 := by norm_num
  simp only [uuid4Int, hexDigit, e1]
  have h1 : r % 2^128 % 2^60 < 2^60 := Nat.mod_lt _ (by norm_num)
  have h2 : r % 2^128 / 2^60 % 16 % 4 < 4 := Nat.mod_lt _ (by norm_num)
  have h3 : r % 2^128 / 2^64 % 2^12 < 2^12 := Nat.mod_lt _ (by norm_num)
  omega

theorem uuid4String_canonical (r : Nat) : isCanonicalUUIDv4 (uuid4String r) = true := by
  have h19 := uuid4Int_digit19 r
  obtain ⟨k, hk, h15⟩ := uuid4Int_digit15 r
  unfold uuid4String uuid4Chars isCanonicalUUIDv4
  dsimp only
  norm_num [hexChar_isHexLower]
  rw [h19, h15]
  exact ⟨by decide, by interval_cases k <;> decide⟩

theorem hexChar_digit_inj (x y i : Nat)
    (h : hexChar (hexDigit x i) = hexChar (hexDigit y i)) : hexDigit x i = hexDigit y i := by
  have hc := congrArg hexVal h
  rwa [hexVal_hexChar _ (hexDigit_lt x i), hexVal_hexChar _ (hexDigit_lt y i)] at hc

theorem hexDigits_ext (n : Nat) : ∀ x y : Nat, x < 16 ^ n → y < 16 ^ n →
    (∀ i, i < n → hexDigit x i = hexDigit y i) → x = y := by
  induction n with
  | zero =>
    intro x y hx hy _
    simp only [pow_zero, Nat.lt_one_iff] at hx hy
    omega
  | succ n ih =>
    intro x y hx hy hd
    have h0 : x % 16 = y % 16 := by
      have h := hd 0 (Nat.succ_pos n)
      simpa [hexDigit] using h
    have hq : x / 16 = y / 16 := by
      refine ih (x / 16) (y / 16) ?_ ?_ ?_
      · exact Nat.div_lt_of_lt_mul (by rwa [← pow_succ'] )
      · exact Nat.div_lt_of_lt_mul (by rwa [← pow_succ'] )
      · intro i hi
        have h := hd (i + 1) (by omega)
        simpa [hexDigit, Nat.div_div_eq_div_mul, pow_succ'] using h
    omega


theorem uuid4String_inj (r1 r2 : Nat) (h : uuid4Int r1 ≠ uuid4Int r2) :
    uuid4String r1 ≠ uuid4String r2 := by
  intro he
  apply h
  have hl : uuid4Chars r1 = uuid4Chars r2 := congrArg String.data he
  unfold uuid4Chars at hl
  dsimp only at hl
  norm_num [List.cons.injEq] at hl
  obtain ⟨c0, c1, c2, c3, c4, c5, c6, c7, c8, c9, c10, c11, c12, c13, c14, c15,
    c16, c17, c18, c19, c20, c21, c22, c23, c24, c25, c26, c27, c28, c29, c30, c31⟩ := hl
  have hb1 : uuid4Int r1 < 16 ^ 32 := by
    have := uuid4Int_lt r1
    norm_num at this ⊢
    omega
  have hb2 : uuid4Int r2 < 16 ^ 32 := by
    have := uuid4Int_lt r2
    norm_num at this ⊢
    omega
  refine hexDigits_ext 32 _ _ hb1 hb2 ?_
  intro i hi
  interval_cases i <;>
    first
    | exact hexChar_digit_inj _ _ _ c0
    | exact hexChar_digit_inj _ _ _ c1
    | exact hexChar_digit_inj _ _ _ c2
    | exact hexChar_digit_inj _ _ _ c3
    | exact hexChar_digit_inj _ _ _ c4
    | exact hexChar_digit_inj _ _ _ c5
    | exact hexChar_digit_inj _ _ _ c6
    | exact hexChar_digit_inj _ _ _ c7
    | exact hexChar_digit_inj _ _ _ c8
    | exact hexChar_digit_inj _ _ _ c9
    | exact hexChar_digit_inj _ _ _ c10
    | exact hexChar_digit_inj _ _ _ c11
    | exact hexChar_digit_inj _ _ _ c12
    | exact hexChar_digit_inj _ _ _ c13
    | exact hexChar_digit_inj _ _ _ c14
    | exact hexChar_digit_inj _ _ _ c15
    | exact hexChar_digit_inj _ _ _ c16
    | exact hexChar_digit_inj _ _ _ c17
    | exact hexChar_digit_inj _ _ _ c18
    | exact hexChar_digit_inj _ _ _ c19
    | exact hexChar_digit_inj _ _ _ c20
    | exact hexChar_digit_inj _ _ _ c21
    | exact hexChar_digit_inj _ _ _ c22
    | exact hexChar_digit_inj _ _ _ c23
    | exact hexChar_digit_inj _ _ _ c24
    | exact hexChar_digit_inj _ _ _ c25
    | exact hexChar_digit_inj _ _ _ c26
    | exact hexChar_digit_inj _ _ _ c27
    | exact hexChar_digit_inj _ _ _ c28
    | exact hexChar_digit_inj _ _ _ c29
    | exact hexChar_digit_inj _ _ _ c30
    | exact hexChar_digit_inj _ _ _ c31

theorem hasField_iff_lookupField (fields : List (String × JsonVal)) (k : String) :
    hasField fields k = true ↔ ∃ v, lookupField fields k = some v := by
  constructor
  · intro h
    cases hf : fields.reverse.find? (fun p => p.1 == k) with
    | some p => exact ⟨p.2, by simp [lookupField, hf]⟩
    | none =>
      exfalso
      rw [List.find?_eq_none] at hf
      simp only [hasField, List.any_eq_true] at h
      obtain ⟨p, hp, hpk⟩ := h
      exact absurd hpk (by simpa using hf p (by simpa using hp))
  · rintro ⟨v, hv⟩
    simp only [lookupField, Option.map_eq_some'] at hv
    obtain ⟨p, hp, _⟩ := hv
    have hpk := List.find?_some hp
    have hmem := List.mem_of_find?_eq_some hp
    simp only [hasField, List.any_eq_true]
    exact ⟨p, by simpa using hmem, hpk⟩

theorem hasField_of_lookupField (fields : List (String × JsonVal)) (k : String) (v : JsonVal)
    (h : lookupField fields k = some v) : hasField fields k = true :=
  (hasField_iff_lookupField fields k).2 ⟨v, h⟩

theorem hasField_false_of_lookupField_none (fields : List (String × JsonVal)) (k : String)
    (h : lookupField fields k = none) : hasField fields k = false := by
  cases hh : hasField fields k with
  | false => rfl
  | true =>
    obtain ⟨v, hv⟩ := (hasField_iff_lookupField fields k).1 hh
    rw [h] at hv
    exact absurd hv (by simp)

/-- The two `except` clauses (lines 93-147) applied to the outcome of the
`try` block; `lambda_handler` is definitionally this composition. -/
def exceptToResponse : Except (PyErr × Bool) (JsonVal × Bool) → HandlerResult
  | .ok (body, w) => { statusCode := 200, bodyVal := body, wrote := w }
  | .error (e, w) =>
    if isExpectedError e then
      { statusCode := errStatus e, bodyVal := errorBody e, wrote := w }
    else
      { statusCode := 500, bodyVal := unexpectedBody e, wrote := w }

theorem lambda_handler_eq (tableEnv : Option String) (parse : String → Except String JsonVal)
    (r : Nat) (store : StoreOutcome) (event : JsonVal) :
    lambda_handler tableEnv parse r store event =
      exceptToResponse (handlerTry tableEnv parse r store event) := by
  unfold lambda_handler exceptToResponse
  cases handlerTry tableEnv parse r store event with
  | ok p => cases p; rfl
  | error p => cases p; rfl

/-- C3: for every request whose resolved body is a mapping containing both
`tenant_id` and `pelicula_datos`, with the table configured and the store
write succeeding, the handler returns status 200 and a body whose `pelicula`
record carries the request's `tenant_id` and `pelicula_datos` verbatim plus
a freshly generated uuid in canonical hyphenated v4 textual form; two calls
whose (version/variant-masked) random draws differ produce distinct uuids. -/
theorem C3_valid_request_success (tbl : String) (parse : String → Except String JsonVal)
    (event : JsonVal) (fields : List (String × JsonVal)) (tenant datos : JsonVal)
    (r r2 : Nat) (hs : Option Int)
    (htbl : tbl.isEmpty = false)
    (hbody : _parse_event_body parse event = .ok (.obj fields))
    (ht : lookupField fields "tenant_id" = some tenant)
    (hd : lookupField fields "pelicula_datos" = some datos) :
    (lambda_handler (some tbl) parse r (.ok hs) event).statusCode = 200 ∧
    (lambda_handler (some tbl) parse r (.ok hs) event).bodyVal =
      successBody (peliculaRecord tenant (uuid4String r) datos) hs ∧
    (lambda_handler (some tbl) parse r (.ok hs) event).wrote = true ∧
    isCanonicalUUIDv4 (uuid4String r) = true ∧
    (uuid4Int r ≠ uuid4Int r2 → uuid4String r ≠ uuid4String r2) := by
  have hT := hasField_of_lookupField fields "tenant_id" tenant ht
  have hP := hasField_of_lookupField fields "pelicula_datos" datos hd
  have hrun : handlerTry (some tbl) parse r (.ok hs) event =
      .ok (successBody (peliculaRecord tenant (uuid4String r) datos) hs, true) := by
    unfold handlerTry
    simp [htbl, hbody, pyContains, pyGetItem, hT, hP, ht, hd]
  rw [lambda_handler_eq, hrun]
  exact ⟨rfl, rfl, rfl, uuid4String_canonical r, uuid4String_inj r r2⟩

theorem C3_witness :
    ("tabla".isEmpty = false) ∧
    (_parse_event_body (fun _ => .error "no parse")
        (.obj [("body", .obj [("tenant_id", .str "t1"), ("pelicula_datos", .obj [("titulo", .str "X")])])]) =
      .ok (.obj [("tenant_id", .str "t1"), ("pelicula_datos", .obj [("titulo", .str "X")])])) ∧
    (lookupField [("tenant_id", .str "t1"), ("pelicula_datos", .obj [("titulo", .str "X")])] "tenant_id" =
      some (.str "t1")) ∧
    (lookupField [("tenant_id", .str "t1"), ("pelicula_datos", .obj [("titulo", .str "X")])] "pelicula_datos" =
      some (.obj [("titulo", .str "X")])) ∧
    ((lambda_handler (some "tabla") (fun _ => .error "no parse") 0 (.ok (some 200))
        (.obj [("body", .obj [("tenant_id", .str "t1"), ("pelicula_datos", .obj [("titulo", .str "X")])])])).statusCode = 200 ∧
     (lambda_handler (some "tabla") (fun _ => .error "no parse") 0 (.ok (some 200))
        (.obj [("body", .obj [("tenant_id", .str "t1"), ("pelicula_datos", .obj [("titulo", .str "X")])])])).bodyVal =
       successBody (peliculaRecord (.str "t1") (uuid4String 0) (.obj [("titulo", .str "X")])) (some 200) ∧
     (lambda_handler (some "tabla") (fun _ => .error "no parse") 0 (.ok (some 200))
        (.obj [("body", .obj [("tenant_id", .str "t1"), ("pelicula_datos", .obj [("titulo", .str "X")])])])).wrote = true ∧
     isCanonicalUUIDv4 (uuid4String 0) = true ∧
     (uuid4Int 0 ≠ uuid4Int 1 → uuid4String 0 ≠ uuid4String 1)) :=
  ⟨rfl, rfl, rfl, rfl,
   C3_valid_request_success "tabla" (fun _ => .error "no parse")
     (.obj [("body", .obj [("tenant_id", .str "t1"), ("pelicula_datos", .obj [("titulo", .str "X")])])])
     [("tenant_id", .str "t1"), ("pelicula_datos", .obj [("titulo", .str "X")])]
     (.str "t1") (.obj [("titulo", .str "X")]) 0 1 (some 200) rfl rfl rfl rfl⟩

/-- C9: for a request envelope (a mapping), exactly one body interpretation
is chosen in priority order: a `body` key holding a mapping is the body
itself; a `body` key holding a (non-blank) string is JSON-decoded; only when
no `body` key is present are the envelope's top-level fields used. -/
theorem C9_body_priority (parse : String → Except String JsonVal)
    (fields : List (String × JsonVal)) (bf : List (String × JsonVal))
    (s : String) (v : JsonVal) :
    (lookupField fields "body" = some (.obj bf) →
      _parse_event_body parse (.obj fields) = .ok (.obj bf)) ∧
    (lookupField fields "body" = some (.str s) → (pyStrip s).isEmpty = false →
      parse s = .ok v → _parse_event_body parse (.obj fields) = .ok v) ∧
    (lookupField fields "body" = none →
      _parse_event_body parse (.obj fields) = .ok (.obj fields)) := by
  refine ⟨fun h => by simp [_parse_event_body, h],
    fun h hns hp => by simp [_parse_event_body, h, hns, hp],
    fun h => by simp [_parse_event_body, h]⟩

theorem C9_witness :
    (lookupField [("body", .obj [("x", .null)])] "body" = some (.obj [("x", .null)]) ∧
      _parse_event_body (fun _ => .error "no parse") (.obj [("body", .obj [("x", .null)])]) =
        .ok (.obj [("x", .null)])) ∧
    (lookupField [("body", .str "7")] "body" = some (.str "7") ∧
      (pyStrip "7").isEmpty = false ∧
      ((fun _ => Except.ok (JsonVal.num 7) : String → Except String JsonVal)) "7" = Except.ok (JsonVal.num 7) ∧
      _parse_event_body (fun _ => Except.ok (JsonVal.num 7) : String → Except String JsonVal) (.obj [("body", .str "7")]) =
        .ok (.num 7)) ∧
    (lookupField [("tenant_id", .str "t1")] "body" = none ∧
      _parse_event_body (fun _ => .error "no parse") (.obj [("tenant_id", .str "t1")]) =
        .ok (.obj [("tenant_id", .str "t1")])) :=
  ⟨⟨rfl, (C9_body_priority (fun _ => .error "no parse") [("body", .obj [("x", .null)])]
      [("x", .null)] "" .null).1 rfl⟩,
   ⟨rfl, by decide, rfl,
    (C9_body_priority (fun _ => Except.ok (JsonVal.num 7) : String → Except String JsonVal) [("body", .str "7")] []
      "7" (.num 7)).2.1 rfl (by decide) rfl⟩,
   ⟨rfl, (C9_body_priority (fun _ => .error "no parse") [("tenant_id", .str "t1")] []
      "" .null).2.2 rfl⟩⟩

/-- C5 (amended): for every request whose resolved body is a mapping lacking
`tenant_id` (resp. lacking `pelicula_datos`), the handler returns status 400
with a `KeyError` naming the missing field; for the input
`{"body": {"tenant_id": "t1"}}` the output is exactly status 400 with body
`{"error": {"mensaje": "\"Falta 'pelicula_datos' en el body.\"", "tipo_error":
"KeyError"}}` — the `mensaje` carries the quotes that Python's `str` of a
`KeyError` adds, and the error class name is `KeyError`, not
`MissingFieldError`. -/
theorem C5_missing_required_field (tbl : String) (parse : String → Except String JsonVal)
    (event : JsonVal) (fields : List (String × JsonVal)) (r : Nat) (store : StoreOutcome)
    (htbl : tbl.isEmpty = false)
    (hbody : _parse_event_body parse event = .ok (.obj fields)) :
    (lookupField fields "tenant_id" = none →
      (lambda_handler (some tbl) parse r store event).statusCode = 400 ∧
      errFieldStr (lambda_handler (some tbl) parse r store event) "tipo_error" = some "KeyError" ∧
      errFieldStr (lambda_handler (some tbl) parse r store event) "mensaje" =
        some (pyReprStr "Falta \x27tenant_id\x27 en el body.")) ∧
    (lookupField fields "pelicula_datos" = none →
      (lambda_handler (some tbl) parse r store event).statusCode = 400 ∧
      errFieldStr (lambda_handler (some tbl) parse r store event) "tipo_error" = some "KeyError" ∧
      (errFieldStr (lambda_handler (some tbl) parse r store event) "mensaje" =
        some (pyReprStr "Falta \x27tenant_id\x27 en el body.") ∨
       errFieldStr (lambda_handler (some tbl) parse r store event) "mensaje" =
        some (pyReprStr "Falta \x27pelicula_datos\x27 en el body."))) ∧
    (lambda_handler (some "tabla") (fun _ => .error "no parse") 0 (.ok (some 200))
        (.obj [("body", .obj [("tenant_id", .str "t1")])]) =
      { statusCode := 400,
        bodyVal := .obj [("error", .obj
          [("mensaje", .str "\"Falta \x27pelicula_datos\x27 en el body.\""),
           ("tipo_error", .str "KeyError")])],
        wrote := false }) := by
  refine ⟨fun h => ?_, fun h => ?_, by rfl⟩
  · have hT := hasField_false_of_lookupField_none fields "tenant_id" h
    have hrun : handlerTry (some tbl) parse r store event =
        .error (.keyError "Falta \x27tenant_id\x27 en el body.", false) := by
      unfold handlerTry
      simp [htbl, hbody, pyContains, hT]
    rw [lambda_handler_eq, hrun]
    exact ⟨rfl, rfl, rfl⟩
  · have hP := hasField_false_of_lookupField_none fields "pelicula_datos" h
    cases hhT : hasField fields "tenant_id" with
    | false =>
      have hrun : handlerTry (some tbl) parse r store event =
          .error (.keyError "Falta \x27tenant_id\x27 en el body.", false) := by
        unfold handlerTry
        simp [htbl, hbody, pyContains, hhT]
      rw [lambda_handler_eq, hrun]
      exact ⟨rfl, rfl, Or.inl rfl⟩
    | true =>
      have hrun : handlerTry (some tbl) parse r store event =
          .error (.keyError "Falta \x27pelicula_datos\x27 en el body.", false) := by
        unfold handlerTry
        simp [htbl, hbody, pyContains, hhT, hP]
      rw [lambda_handler_eq, hrun]
      exact ⟨rfl, rfl, Or.inr rfl⟩

theorem C5_witness :
    ("tabla".isEmpty = false) ∧
    (_parse_event_body (fun _ => .error "no parse") (.obj [("body", .obj [("pelicula_datos", .null)])]) =
      .ok (.obj [("pelicula_datos", .null)])) ∧
    ((lookupField [("pelicula_datos", .null)] "tenant_id" = none →
      (lambda_handler (some "tabla") (fun _ => .error "no parse") 0 (.ok (some 200))
        (.obj [("body", .obj [("pelicula_datos", .null)])])).statusCode = 400 ∧
      errFieldStr (lambda_handler (some "tabla") (fun _ => .error "no parse") 0 (.ok (some 200))
        (.obj [("body", .obj [("pelicula_datos", .null)])])) "tipo_error" = some "KeyError" ∧
      errFieldStr (lambda_handler (some "tabla") (fun _ => .error "no parse") 0 (.ok (some 200))
        (.obj [("body", .obj [("pelicula_datos", .null)])])) "mensaje" =
        some (pyReprStr "Falta \x27tenant_id\x27 en el body.")) ∧
    (lookupField [("pelicula_datos", .null)] "pelicula_datos" = none →
      (lambda_handler (some "tabla") (fun _ => .error "no parse") 0 (.ok (some 200))
        (.obj [("body", .obj [("pelicula_datos", .null)])])).statusCode = 400 ∧
      errFieldStr (lambda_handler (some "tabla") (fun _ => .error "no parse") 0 (.ok (some 200))
        (.obj [("body", .obj [("pelicula_datos", .null)])])) "tipo_error" = some "KeyError" ∧
      (errFieldStr (lambda_handler (some "tabla") (fun _ => .error "no parse") 0 (.ok (some 200))
        (.obj [("body", .obj [("pelicula_datos", .null)])])) "mensaje" =
        some (pyReprStr "Falta \x27tenant_id\x27 en el body.") ∨
       errFieldStr (lambda_handler (some "tabla") (fun _ => .error "no parse") 0 (.ok (some 200))
        (.obj [("body", .obj [("pelicula_datos", .null)])])) "mensaje" =
        some (pyReprStr "Falta \x27pelicula_datos\x27 en el body."))) ∧
    (lambda_handler (some "tabla") (fun _ => .error "no parse") 0 (.ok (some 200))
        (.obj [("body", .obj [("tenant_id", .str "t1")])]) =
      { statusCode := 400,
        bodyVal := .obj [("error", .obj
          [("mensaje", .str "\"Falta \x27pelicula_datos\x27 en el body.\""),
           ("tipo_error", .str "KeyError")])],
        wrote := false })) :=
  ⟨rfl, rfl,
   C5_missing_required_field "tabla" (fun _ => .error "no parse")
     (.obj [("body", .obj [("pelicula_datos", .null)])]) [("pelicula_datos", .null)]
     0 (.ok (some 200)) rfl rfl⟩

/-- C5 as stated is false: for input `{"body": {"tenant_id": "t1"}}` the
response's `tipo_error` is `"KeyError"` (not `"MissingFieldError"`) and its
`mensaje` is `"\"Falta 'pelicula_datos' en el body.\""` (Python's `str` of a
`KeyError` wraps the message in quotes), so the output is not exactly the
claimed object. -/
theorem C5_counterexample :
    (lambda_handler (some "tabla") (fun _ => .error "no parse") 0 (.ok (some 200))
        (.obj [("body", .obj [("tenant_id", .str "t1")])])).statusCode = 400 ∧
    errFieldStr (lambda_handler (some "tabla") (fun _ => .error "no parse") 0 (.ok (some 200))
        (.obj [("body", .obj [("tenant_id", .str "t1")])])) "tipo_error" = some "KeyError" ∧
    "KeyError" ≠ "MissingFieldError" ∧
    errFieldStr (lambda_handler (some "tabla") (fun _ => .error "no parse") 0 (.ok (some 200))
        (.obj [("body", .obj [("tenant_id", .str "t1")])])) "mensaje" =
      some "\"Falta \x27pelicula_datos\x27 en el body.\"" ∧
    "\"Falta \x27pelicula_datos\x27 en el body.\"" ≠ "Falta \x27pelicula_datos\x27 en el body." :=
  ⟨rfl, rfl, by decide, rfl, by decide⟩

/-- C1 (amended): when the store write raises a client-side `ClientError`
(bad table, permissions, throttling), the handler returns status 500 — not
400 — because line 116 of the source excludes `ClientError` from the
400-status tuple; the response's `tipo_error` is `"ClientError"` and its
`mensaje` is the raw exception text. -/
theorem C1_store_client_error_is_500 (tbl : String) (parse : String → Except String JsonVal)
    (event : JsonVal) (fields : List (String × JsonVal)) (tenant datos : JsonVal)
    (r : Nat) (m : String)
    (htbl : tbl.isEmpty = false)
    (hbody : _parse_event_body parse event = .ok (.obj fields))
    (ht : lookupField fields "tenant_id" = some tenant)
    (hd : lookupField fields "pelicula_datos" = some datos) :
    (lambda_handler (some tbl) parse r (.raises (.clientError m)) event).statusCode = 500 ∧
    errFieldStr (lambda_handler (some tbl) parse r (.raises (.clientError m)) event)
      "tipo_error" = some "ClientError" ∧
    errFieldStr (lambda_handler (some tbl) parse r (.raises (.clientError m)) event)
      "mensaje" = some m := by
  have hT := hasField_of_lookupField fields "tenant_id" tenant ht
  have hP := hasField_of_lookupField fields "pelicula_datos" datos hd
  have hrun : handlerTry (some tbl) parse r (.raises (.clientError m)) event =
      .error (.clientError m, true) := by
    unfold handlerTry
    simp [htbl, hbody, pyContains, pyGetItem, hT, hP, ht, hd]
  rw [lambda_handler_eq, hrun]
  exact ⟨rfl, rfl, rfl⟩

theorem C1_witness :
    ("tabla".isEmpty = false) ∧
    (_parse_event_body (fun _ => .error "no parse")
        (.obj [("tenant_id", .str "t1"), ("pelicula_datos", .null)]) =
      .ok (.obj [("tenant_id", .str "t1"), ("pelicula_datos", .null)])) ∧
    (lookupField [("tenant_id", .str "t1"), ("pelicula_datos", .null)] "tenant_id" =
      some (.str "t1")) ∧
    (lookupField [("tenant_id", .str "t1"), ("pelicula_datos", .null)] "pelicula_datos" =
      some .null) ∧
    ((lambda_handler (some "tabla") (fun _ => .error "no parse") 0
        (.raises (.clientError "An error occurred (ResourceNotFoundException) when calling the PutItem operation: Requested resource not found"))
        (.obj [("tenant_id", .str "t1"), ("pelicula_datos", .null)])).statusCode = 500 ∧
     errFieldStr (lambda_handler (some "tabla") (fun _ => .error "no parse") 0
        (.raises (.clientError "An error occurred (ResourceNotFoundException) when calling the PutItem operation: Requested resource not found"))
        (.obj [("tenant_id", .str "t1"), ("pelicula_datos", .null)])) "tipo_error" = some "ClientError" ∧
     errFieldStr (lambda_handler (some "tabla") (fun _ => .error "no parse") 0
        (.raises (.clientError "An error occurred (ResourceNotFoundException) when calling the PutItem operation: Requested resource not found"))
        (.obj [("tenant_id", .str "t1"), ("pelicula_datos", .null)])) "mensaje" =
      some "An error occurred (ResourceNotFoundException) when calling the PutItem operation: Requested resource not found") :=
  ⟨rfl, rfl, rfl, rfl,
   C1_store_client_error_is_500 "tabla" (fun _ => .error "no parse")
     (.obj [("tenant_id", .str "t1"), ("pelicula_datos", .null)])
     [("tenant_id", .str "t1"), ("pelicula_datos", .null)]
     (.str "t1") .null 0
     "An error occurred (ResourceNotFoundException) when calling the PutItem operation: Requested resource not found"
     rfl rfl rfl rfl⟩

/-- C1 as stated is false: a client-side store error (here a throttling
`ProvisionedThroughputExceededException` raised as `ClientError`) makes the
handler return status 500, not 400. -/
theorem C1_counterexample :
    (lambda_handler (some "tabla") (fun _ => .error "no parse") 0
        (.raises (.clientError "An error occurred (ProvisionedThroughputExceededException) when calling the PutItem operation: Throughput exceeds the current capacity"))
        (.obj [("body", .obj [("tenant_id", .str "t1"), ("pelicula_datos", .null)])])).statusCode = 500 ∧
    (500 : Nat) ≠ 400 :=
  ⟨rfl, by decide⟩

/-- C4 (amended): an exception not caught by the first `except` clause (not
`ClientError`/`ValueError`/`KeyError`/`RuntimeError`) yields status 500 with
the generic message `Error interno inesperado.`; but a store-reported error
— server-side errors included, since `botocore` raises them all as
`ClientError` — yields status 500 with the *raw* exception text as
`mensaje`, not a generic message. -/
theorem C4_unexpected_failure_500 (tableEnv : Option String)
    (parse : String → Except String JsonVal) (r : Nat) (store : StoreOutcome)
    (event : JsonVal) (e : PyErr) (w : Bool)
    (h : handlerTry tableEnv parse r store event = .error (e, w)) :
    (isExpectedError e = false →
      (lambda_handler tableEnv parse r store event).statusCode = 500 ∧
      errFieldStr (lambda_handler tableEnv parse r store event) "mensaje" =
        some "Error interno inesperado." ∧
      errFieldStr (lambda_handler tableEnv parse r store event) "tipo_error" =
        some (className e)) ∧
    (∀ m, e = .clientError m →
      (lambda_handler tableEnv parse r store event).statusCode = 500 ∧
      errFieldStr (lambda_handler tableEnv parse r store event) "mensaje" = some m) := by
  rw [lambda_handler_eq, h]
  constructor
  · intro hu
    simp [exceptToResponse, hu, errFieldStr, errField, unexpectedBody, lookupField]
  · rintro m rfl
    exact ⟨rfl, rfl⟩

theorem C4_witness :
    (handlerTry (some "tabla") (fun _ => .error "no parse") 0
        (.raises (.otherError "ConnectionError" "Max retries exceeded"))
        (.obj [("tenant_id", .str "t1"), ("pelicula_datos", .null)]) =
      .error (.otherError "ConnectionError" "Max retries exceeded", true)) ∧
    ((isExpectedError (.otherError "ConnectionError" "Max retries exceeded") = false →
      (lambda_handler (some "tabla") (fun _ => .error "no parse") 0
        (.raises (.otherError "ConnectionError" "Max retries exceeded"))
        (.obj [("tenant_id", .str "t1"), ("pelicula_datos", .null)])).statusCode = 500 ∧
      errFieldStr (lambda_handler (some "tabla") (fun _ => .error "no parse") 0
        (.raises (.otherError "ConnectionError" "Max retries exceeded"))
        (.obj [("tenant_id", .str "t1"), ("pelicula_datos", .null)])) "mensaje" =
        some "Error interno inesperado." ∧
      errFieldStr (lambda_handler (some "tabla") (fun _ => .error "no parse") 0
        (.raises (.otherError "ConnectionError" "Max retries exceeded"))
        (.obj [("tenant_id", .str "t1"), ("pelicula_datos", .null)])) "tipo_error" =
        some (className (.otherError "ConnectionError" "Max retries exceeded"))) ∧
    (∀ m, (PyErr.otherError "ConnectionError" "Max retries exceeded") = .clientError m →
      (lambda_handler (some "tabla") (fun _ => .error "no parse") 0
        (.raises (.otherError "ConnectionError" "Max retries exceeded"))
        (.obj [("tenant_id", .str "t1"), ("pelicula_datos", .null)])).statusCode = 500 ∧
      errFieldStr (lambda_handler (some "tabla") (fun _ => .error "no parse") 0
        (.raises (.otherError "ConnectionError" "Max retries exceeded"))
        (.obj [("tenant_id", .str "t1"), ("pelicula_datos", .null)])) "mensaje" = some m)) :=
  ⟨rfl,
   C4_unexpected_failure_500 (some "tabla") (fun _ => .error "no parse") 0
     (.raises (.otherError "ConnectionError" "Max retries exceeded"))
     (.obj [("tenant_id", .str "t1"), ("pelicula_datos", .null)])
     (.otherError "ConnectionError" "Max retries exceeded") true rfl⟩

/-- C4 as stated is false for store-reported server errors: a DynamoDB
`InternalServerError` is raised as `ClientError`, and the handler then puts
the raw exception text — not a generic message — into `mensaje`. -/
theorem C4_counterexample :
    (lambda_handler (some "tabla") (fun _ => .error "no parse") 0
        (.raises (.clientError "An error occurred (InternalServerError) when calling the PutItem operation: Internal server error"))
        (.obj [("body", .obj [("tenant_id", .str "t1"), ("pelicula_datos", .null)])])).statusCode = 500 ∧
    errFieldStr (lambda_handler (some "tabla") (fun _ => .error "no parse") 0
        (.raises (.clientError "An error occurred (InternalServerError) when calling the PutItem operation: Internal server error"))
        (.obj [("body", .obj [("tenant_id", .str "t1"), ("pelicula_datos", .null)])])) "mensaje" =
      some "An error occurred (InternalServerError) when calling the PutItem operation: Internal server error" ∧
    "An error occurred (InternalServerError) when calling the PutItem operation: Internal server error" ≠
      "Error interno inesperado." :=
  ⟨rfl, rfl, by decide⟩

/-- C7: a request whose `body` key holds a non-blank string that fails JSON
decoding yields status 400 with the `JSONDecodeError` validation error (a
subclass of Python's `ValueError`), and the store write is never reached. -/
theorem C7_malformed_json_body (tbl : String) (parse : String → Except String JsonVal)
    (fields : List (String × JsonVal)) (s m : String) (r : Nat) (store : StoreOutcome)
    (htbl : tbl.isEmpty = false)
    (hb : lookupField fields "body" = some (.str s))
    (hns : (pyStrip s).isEmpty = false)
    (hp : parse s = .error m) :
    (lambda_handler (some tbl) parse r store (.obj fields)).statusCode = 400 ∧
    errFieldStr (lambda_handler (some tbl) parse r store (.obj fields)) "tipo_error" =
      some "JSONDecodeError" ∧
    errFieldStr (lambda_handler (some tbl) parse r store (.obj fields)) "mensaje" = some m ∧
    (lambda_handler (some tbl) parse r store (.obj fields)).wrote = false := by
  have hrun : handlerTry (some tbl) parse r store (.obj fields) =
      .error (.jsonDecodeError m, false) := by
    unfold handlerTry
    simp [htbl, _parse_event_body, hb, hns, hp]
  rw [lambda_handler_eq, hrun]
  exact ⟨rfl, rfl, rfl, rfl⟩

theorem C7_witness :
    ("tabla".isEmpty = false) ∧
    (lookupField [("body", .str "not json")] "body" = some (.str "not json")) ∧
    ((pyStrip "not json").isEmpty = false) ∧
    ((fun _ => Except.error "Expecting value: line 1 column 1 (char 0)" :
        String → Except String JsonVal) "not json" =
      .error "Expecting value: line 1 column 1 (char 0)") ∧
    ((lambda_handler (some "tabla")
        (fun _ => Except.error "Expecting value: line 1 column 1 (char 0)" :
          String → Except String JsonVal) 0 (.ok (some 200))
        (.obj [("body", .str "not json")])).statusCode = 400 ∧
     errFieldStr (lambda_handler (some "tabla")
        (fun _ => Except.error "Expecting value: line 1 column 1 (char 0)" :
          String → Except String JsonVal) 0 (.ok (some 200))
        (.obj [("body", .str "not json")])) "tipo_error" = some "JSONDecodeError" ∧
     errFieldStr (lambda_handler (some "tabla")
        (fun _ => Except.error "Expecting value: line 1 column 1 (char 0)" :
          String → Except String JsonVal) 0 (.ok (some 200))
        (.obj [("body", .str "not json")])) "mensaje" =
      some "Expecting value: line 1 column 1 (char 0)" ∧
     (lambda_handler (some "tabla")
        (fun _ => Except.error "Expecting value: line 1 column 1 (char 0)" :
          String → Except String JsonVal) 0 (.ok (some 200))
        (.obj [("body", .str "not json")])).wrote = false) :=
  ⟨rfl, rfl, by decide, rfl,
   C7_malformed_json_body "tabla"
     (fun _ => Except.error "Expecting value: line 1 column 1 (char 0)")
     [("body", .str "not json")] "not json" "Expecting value: line 1 column 1 (char 0)"
     0 (.ok (some 200)) rfl rfl (by decide) rfl⟩

/-- C8: a request whose `body` key holds an empty or whitespace-only string
resolves to the empty mapping, so the request fails the `tenant_id`
missing-field check with status 400 and a `KeyError` — not a parse error
(the `json.loads` call is never made). -/
theorem C8_blank_string_body (tbl : String) (parse : String → Except String JsonVal)
    (fields : List (String × JsonVal)) (s : String) (r : Nat) (store : StoreOutcome)
    (htbl : tbl.isEmpty = false)
    (hb : lookupField fields "body" = some (.str s))
    (hws : (pyStrip s).isEmpty = true) :
    _parse_event_body parse (.obj fields) = .ok (.obj []) ∧
    (lambda_handler (some tbl) parse r store (.obj fields)).statusCode = 400 ∧
    errFieldStr (lambda_handler (some tbl) parse r store (.obj fields)) "tipo_error" =
      some "KeyError" ∧
    errFieldStr (lambda_handler (some tbl) parse r store (.obj fields)) "mensaje" =
      some (pyReprStr "Falta \x27tenant_id\x27 en el body.") := by
  have hparse : _parse_event_body parse (.obj fields) = .ok (.obj []) := by
    simp [_parse_event_body, hb, hws]
  have hrun : handlerTry (some tbl) parse r store (.obj fields) =
      .error (.keyError "Falta \x27tenant_id\x27 en el body.", false) := by
    unfold handlerTry
    simp [htbl, hparse, pyContains, hasField]
  rw [lambda_handler_eq, hrun]
  exact ⟨hparse, rfl, rfl, rfl⟩

theorem C8_witness :
    ("tabla".isEmpty = false) ∧
    (lookupField [("body", .str "  \t\n")] "body" = some (.str "  \t\n")) ∧
    ((pyStrip "  \t\n").isEmpty = true) ∧
    (_parse_event_body (fun _ => .error "no parse") (.obj [("body", .str "  \t\n")]) =
      .ok (.obj []) ∧
     (lambda_handler (some "tabla") (fun _ => .error "no parse") 0 (.ok (some 200))
        (.obj [("body", .str "  \t\n")])).statusCode = 400 ∧
     errFieldStr (lambda_handler (some "tabla") (fun _ => .error "no parse") 0 (.ok (some 200))
        (.obj [("body", .str "  \t\n")])) "tipo_error" = some "KeyError" ∧
     errFieldStr (lambda_handler (some "tabla") (fun _ => .error "no parse") 0 (.ok (some 200))
        (.obj [("body", .str "  \t\n")])) "mensaje" =
      some (pyReprStr "Falta \x27tenant_id\x27 en el body.")) :=
  ⟨rfl, rfl, by decide,
   C8_blank_string_body "tabla" (fun _ => .error "no parse")
     [("body", .str "  \t\n")] "  \t\n" 0 (.ok (some 200)) rfl rfl (by decide)⟩

/-- Whether a Python value is a dict or a string (the types accepted for a
present `body` key). -/
def isDictOrString : JsonVal → Bool
  | .str _ => true
  | .obj _ => true
  | _ => false

/-- C10: a request whose `body` key is present but holds neither a mapping
nor a string (a list, number, boolean or null) yields status 400 with a
`ValueError` whose message says the body must be a dict or JSON string; the
top-level fallback is not taken and the store write is never reached. -/
theorem C10_body_wrong_type (tbl : String) (parse : String → Except String JsonVal)
    (fields : List (String × JsonVal)) (b : JsonVal) (r : Nat) (store : StoreOutcome)
    (htbl : tbl.isEmpty = false)
    (hb : lookupField fields "body" = some b)
    (hnb : isDictOrString b = false) :
    _parse_event_body parse (.obj fields) =
      .error (.valueError "El campo \x27body\x27 debe ser dict o string JSON.") ∧
    (lambda_handler (some tbl) parse r store (.obj fields)).statusCode = 400 ∧
    errFieldStr (lambda_handler (some tbl) parse r store (.obj fields)) "tipo_error" =
      some "ValueError" ∧
    errFieldStr (lambda_handler (some tbl) parse r store (.obj fields)) "mensaje" =
      some "El campo \x27body\x27 debe ser dict o string JSON." ∧
    (lambda_handler (some tbl) parse r store (.obj fields)).wrote = false := by
  have hparse : _parse_event_body parse (.obj fields) =
      .error (.valueError "El campo \x27body\x27 debe ser dict o string JSON.") := by
    cases b <;> simp_all [_parse_event_body, isDictOrString, hb]
  have hrun : handlerTry (some tbl) parse r store (.obj fields) =
      .error (.valueError "El campo \x27body\x27 debe ser dict o string JSON.", false) := by
    unfold handlerTry
    simp [htbl, hparse]
  rw [lambda_handler_eq, hrun]
  exact ⟨hparse, rfl, rfl, rfl, rfl⟩

theorem C10_witness :
    ("tabla".isEmpty = false) ∧
    (lookupField [("body", .arr [.str "x"])] "body" = some (.arr [.str "x"])) ∧
    (isDictOrString (.arr [.str "x"]) = false) ∧
    (_parse_event_body (fun _ => .error "no parse") (.obj [("body", .arr [.str "x"])]) =
      .error (.valueError "El campo \x27body\x27 debe ser dict o string JSON.") ∧
     (lambda_handler (some "tabla") (fun _ => .error "no parse") 0 (.ok (some 200))
        (.obj [("body", .arr [.str "x"])])).statusCode = 400 ∧
     errFieldStr (lambda_handler (some "tabla") (fun _ => .error "no parse") 0 (.ok (some 200))
        (.obj [("body", .arr [.str "x"])])) "tipo_error" = some "ValueError" ∧
     errFieldStr (lambda_handler (some "tabla") (fun _ => .error "no parse") 0 (.ok (some 200))
        (.obj [("body", .arr [.str "x"])])) "mensaje" =
      some "El campo \x27body\x27 debe ser dict o string JSON." ∧
     (lambda_handler (some "tabla") (fun _ => .error "no parse") 0 (.ok (some 200))
        (.obj [("body", .arr [.str "x"])])).wrote = false) :=
  ⟨rfl, rfl, rfl,
   C10_body_wrong_type "tabla" (fun _ => .error "no parse")
     [("body", .arr [.str "x"])] (.arr [.str "x"]) 0 (.ok (some 200)) rfl rfl rfl⟩
